import Mathlib

/-!
Verification of the entity synchronization layer of the myApp repository:
the Zod schemas (`createUserSchema`, `updateUserSchema`, `userResponseSchema`
from `user.types.ts`), the Axios-backed `userService` (`userService.ts`) and
the zustand store `useUserStore` (`userStore.ts`).

Modelling conventions:
- Untyped JSON values are the inductive `Json`.
- A Zod schema applied with `.parse` either returns a typed value or throws a
  `ZodError` carrying the full list of issues; we model the issue computation
  as a total function to `List ZodIssue` and parsing as `Except`.
- A JavaScript async function either fulfills with a value or rejects with a
  thrown error; this is `JsOutcome`: `.value` is fulfillment, `.thrown` is a
  rejection (a thrown `ZodError` or an Axios HTTP error).
- Store thunks are modelled as state transformers parameterized by the
  outcome of the awaited service call.  Each thunk returns the pair of
  (state right after the synchronous start, final state), mirroring the
  code's `set({ loading: true, error: null })` before the `await` and the
  success/catch `set` after it.
-/

/-- Untyped JSON data as received from forms and HTTP bodies. -/
inductive Json where
  | null : Json
  | bool (b : Bool) : Json
  | num (n : Int) : Json
  | str (s : String) : Json
  | arr (elems : List Json) : Json
  | obj (fields : List (String × Json)) : Json

/-- A single Zod validation issue: a field path and a message. -/
structure ZodIssue where
  path : List String
  message : String
deriving DecidableEq, Repr

/-- Split a character list on a separator character (used to model the
string-shape checks of the schemas without relying on `String.splitOn`). -/
def splitOnChar (sep : Char) : List Char → List (List Char)
  | [] => [[]]
  | c :: rest =>
    if c == sep then [] :: splitOnChar sep rest
    else
      match splitOnChar sep rest with
      | [] => [[c]]
      | r :: rs => (c :: r) :: rs

/-- Modelled from the spec: "email well-formed per standard email grammar".
The Zod library's internal email regular expression is not part of this
repository; we model it as: exactly one `@`, non-empty local part, non-empty
domain containing a dot, not starting or ending with a dot, and no spaces. -/
def emailOk (s : String) : Bool :=
  match splitOnChar '@' s.data with
  | [lp, dom] =>
    !lp.isEmpty && !dom.isEmpty && dom.any (· == '.') &&
    dom.head? != some '.' && dom.getLast? != some '.' &&
    !s.data.any (· == ' ')
  | _ => false

/-- A non-empty all-digit character list. -/
def allDigits (cs : List Char) : Bool := !cs.isEmpty && cs.all Char.isDigit

/-- Modelled from the spec: the date part of a "valid date-time"
(`YYYY-MM-DD`; the Zod library's datetime check is not in this repository). -/
def dateOk (cs : List Char) : Bool :=
  match splitOnChar '-' cs with
  | [y, m, d] =>
    y.length == 4 && m.length == 2 && d.length == 2 &&
    allDigits y && allDigits m && allDigits d
  | _ => false

/-- Modelled from the spec: the time part of a "valid date-time"
(`HH:MM:SS` with optional fractional seconds). -/
def timeOk (cs : List Char) : Bool :=
  match splitOnChar ':' cs with
  | [h, m, rest] =>
    h.length == 2 && m.length == 2 && allDigits h && allDigits m &&
    (match splitOnChar '.' rest with
     | [ss] => ss.length == 2 && allDigits ss
     | [ss, fr] => ss.length == 2 && allDigits ss && allDigits fr
     | _ => false)
  | _ => false

/-- Modelled from the spec: `z.string().datetime()` — an ISO date-time
ending in `Z`. -/
def datetimeOk (s : String) : Bool :=
  match s.data.getLast?, splitOnChar 'T' s.data.dropLast with
  | some 'Z', [d, t] => dateOk d && timeOk t
  | _, _ => false

/-- An ASCII hexadecimal digit. -/
def hexDigit (c : Char) : Bool :=
  c.isDigit || ('a' ≤ c && c ≤ 'f') || ('A' ≤ c && c ≤ 'F')

/-- Modelled from the spec: `z.string().uuid()` — the 8-4-4-4-12 hex-digit
shape (the Zod library's uuid check is not in this repository). -/
def uuidOk (s : String) : Bool :=
  match splitOnChar '-' s.data with
  | [a, b, c, d, e] =>
    a.length == 8 && b.length == 4 && c.length == 4 && d.length == 4 &&
    e.length == 12 && a.all hexDigit && b.all hexDigit && c.all hexDigit &&
    d.all hexDigit && e.all hexDigit
  | _ => false

/-- A JavaScript line terminator (`\n`, `\r`, U+2028, U+2029): in a
JavaScript regular expression without the `s` flag, `.` matches any
character except these. -/
def isLineTerminator (c : Char) : Bool :=
  c == '\n' || c == '\r' || c == '\u2028' || c == '\u2029'

/-- The password rule of `createUserSchema`:
`/^(?=.*[a-z])(?=.*[A-Z])(?=.*\d)/.test(s)`.  The regex is anchored at
position 0 and `.` does not match line terminators, so each lookahead can
only see the maximal line-terminator-free prefix of the string: the test
succeeds iff that prefix contains a lowercase letter, an uppercase letter
and a digit. -/
def passwordRegexOk (s : String) : Bool :=
  let fl := s.data.takeWhile (fun c => !isLineTerminator c)
  fl.any Char.isLower && fl.any Char.isUpper && fl.any Char.isDigit

/-- `CreateUserDTO` from `user.types.ts` (inferred from `createUserSchema`). -/
structure CreateUserDTO where
  name : String
  email : String
  password : String
deriving DecidableEq, Repr

/-- `UpdateUserDTO` from `user.types.ts` (inferred from
`updateUserSchema = createUserSchema.partial()`): every field optional. -/
structure UpdateUserDTO where
  name : Option String
  email : Option String
  password : Option String
deriving DecidableEq, Repr

/-- `User` from `user.types.ts` (inferred from `userResponseSchema`). -/
structure User where
  id : String
  name : String
  email : String
  created_at : String
  updated_at : String
  deleted_at : Option String
  is_active : Bool
deriving DecidableEq, Repr

/-- The `name` field checks of `createUserSchema`:
`z.string().min(1, ...).max(255, ...)`.  Zod runs every check on the chain
and collects all failing ones. -/
def checkName (s : String) : List ZodIssue :=
  (if s.length < 1 then [⟨[], "O nome é obrigatório"⟩] else []) ++
  (if 255 < s.length then [⟨[], "O nome deve conter no máximo 255 caracteres"⟩] else [])

/-- The `email` field checks of `createUserSchema`:
`z.string().email({ message: "Email inválido" }).min(1, ...)`. -/
def checkEmail (s : String) : List ZodIssue :=
  (if emailOk s then [] else [⟨[], "Email inválido"⟩]) ++
  (if s.length < 1 then [⟨[], "O email é obrigatório"⟩] else [])

/-- The `password` field checks of `createUserSchema`:
`z.string().min(6, ...).regex(/^(?=.*[a-z])(?=.*[A-Z])(?=.*\d)/, ...)`. -/
def checkPassword (s : String) : List ZodIssue :=
  (if s.length < 6 then [⟨[], "A senha deve ter no mínimo 6 caracteres"⟩] else []) ++
  (if passwordRegexOk s then []
   else [⟨[], "A senha deve conter pelo menos uma letra maiúscula, uma minúscula e um número"⟩])

/-- The `id` check of `userResponseSchema`: `z.string().uuid()`. -/
def checkUuid (s : String) : List ZodIssue :=
  if uuidOk s then [] else [⟨[], "Invalid uuid"⟩]

/-- The `email` check of `userResponseSchema`: `z.string().email()` with
the default message. -/
def checkEmailPlain (s : String) : List ZodIssue :=
  if emailOk s then [] else [⟨[], "Invalid email"⟩]

/-- The timestamp checks of `userResponseSchema`: `z.string().datetime()`. -/
def checkDatetime (s : String) : List ZodIssue :=
  if datetimeOk s then [] else [⟨[], "Invalid datetime"⟩]

/-- The bare `z.string()` check of `userResponseSchema`'s `name` field. -/
def checkNothing (_ : String) : List ZodIssue := []

/-- Look a key up in a JSON object's field list (first match, as for a
JavaScript object, whose keys are unique). -/
def lookupField : List (String × Json) → String → Option Json
  | [], _ => none
  | (k, v) :: rest, key => if k = key then some v else lookupField rest key

/-- Issues contributed by a required string field of a `z.object`: a missing
key is `Required`, a non-string value is a type issue, and a present string
runs the field's check chain, with the key prepended to every issue path. -/
def fieldIssues (key : String) (fields : List (String × Json))
    (chk : String → List ZodIssue) : List ZodIssue :=
  match lookupField fields key with
  | none => [⟨[key], "Required"⟩]
  | some (Json.str s) => (chk s).map (fun i => { i with path := key :: i.path })
  | some _ => [⟨[key], "Expected string"⟩]

/-- Issues contributed by an optional string field (a field of
`createUserSchema.partial()`): an absent key is fine, a present value must
still satisfy the field's rule. -/
def optFieldIssues (key : String) (fields : List (String × Json))
    (chk : String → List ZodIssue) : List ZodIssue :=
  match lookupField fields key with
  | none => []
  | some (Json.str s) => (chk s).map (fun i => { i with path := key :: i.path })
  | some _ => [⟨[key], "Expected string"⟩]

/-- Issues contributed by `deleted_at`: `z.string().datetime().nullable()`. -/
def nullableDatetimeIssues (key : String) (fields : List (String × Json)) : List ZodIssue :=
  match lookupField fields key with
  | none => [⟨[key], "Required"⟩]
  | some Json.null => []
  | some (Json.str s) => if datetimeOk s then [] else [⟨[key], "Invalid datetime"⟩]
  | some _ => [⟨[key], "Expected string"⟩]

/-- Issues contributed by `is_active`: `z.boolean()`. -/
def boolFieldIssues (key : String) (fields : List (String × Json)) : List ZodIssue :=
  match lookupField fields key with
  | none => [⟨[key], "Required"⟩]
  | some (Json.bool _) => []
  | some _ => [⟨[key], "Expected boolean"⟩]

/-- All issues of `createUserSchema.parse(j)`: Zod collects the issues of
every field of the object, in declaration order. -/
def createIssuesOf (j : Json) : List ZodIssue :=
  match j with
  | Json.obj fields =>
    fieldIssues "name" fields checkName ++ fieldIssues "email" fields checkEmail ++
    fieldIssues "password" fields checkPassword
  | _ => [⟨[], "Expected object"⟩]

/-- All issues of `updateUserSchema.parse(j)` (`createUserSchema.partial()`). -/
def updateIssuesOf (j : Json) : List ZodIssue :=
  match j with
  | Json.obj fields =>
    optFieldIssues "name" fields checkName ++ optFieldIssues "email" fields checkEmail ++
    optFieldIssues "password" fields checkPassword
  | _ => [⟨[], "Expected object"⟩]

/-- All issues of `userResponseSchema.parse(j)`. -/
def userResponseIssuesOf (j : Json) : List ZodIssue :=
  match j with
  | Json.obj fields =>
    fieldIssues "id" fields checkUuid ++ fieldIssues "name" fields checkNothing ++
    fieldIssues "email" fields checkEmailPlain ++
    fieldIssues "created_at" fields checkDatetime ++
    fieldIssues "updated_at" fields checkDatetime ++
    nullableDatetimeIssues "deleted_at" fields ++ boolFieldIssues "is_active" fields
  | _ => [⟨[], "Expected object"⟩]

/-- All issues of `z.array(userResponseSchema)` on the element list, each
element's issues prefixed with its index. -/
def userListIssuesFrom (i : Nat) : List Json → List ZodIssue
  | [] => []
  | x :: rest =>
    (userResponseIssuesOf x).map (fun is => ⟨toString i :: is.path, is.message⟩) ++
    userListIssuesFrom (i + 1) rest

/-- All issues of `z.array(userResponseSchema).parse(j)`. -/
def userListIssuesOf (j : Json) : List ZodIssue :=
  match j with
  | Json.arr xs => userListIssuesFrom 0 xs
  | _ => [⟨[], "Expected array"⟩]

/-- `createUserSchema.parse`: the typed value on success, all collected
issues on failure (the `.error []` fallbacks are unreachable: when the issue
list is empty every field is a present string). -/
def createUserCheck (j : Json) : Except (List ZodIssue) CreateUserDTO :=
  if createIssuesOf j = [] then
    match j with
    | Json.obj fields =>
      match lookupField fields "name", lookupField fields "email",
            lookupField fields "password" with
      | some (Json.str nn), some (Json.str ee), some (Json.str pp) => .ok ⟨nn, ee, pp⟩
      | _, _, _ => .error []
    | _ => .error []
  else .error (createIssuesOf j)

/-- The string carried by an optional string field known to be valid. -/
def optStrVal : Option Json → Option String
  | some (Json.str s) => some s
  | _ => none

/-- `updateUserSchema.parse`. -/
def updateUserCheck (j : Json) : Except (List ZodIssue) UpdateUserDTO :=
  if updateIssuesOf j = [] then
    match j with
    | Json.obj fields =>
      .ok ⟨optStrVal (lookupField fields "name"), optStrVal (lookupField fields "email"),
           optStrVal (lookupField fields "password")⟩
    | _ => .error []
  else .error (updateIssuesOf j)

/-- Assemble a `User` from a validated response object's fields. -/
def userFromFields (fields : List (String × Json)) : Option User :=
  match lookupField fields "id", lookupField fields "name", lookupField fields "email",
        lookupField fields "created_at", lookupField fields "updated_at",
        lookupField fields "deleted_at", lookupField fields "is_active" with
  | some (Json.str i), some (Json.str nm), some (Json.str em), some (Json.str ca),
    some (Json.str ua), some Json.null, some (Json.bool act) =>
      some ⟨i, nm, em, ca, ua, none, act⟩
  | some (Json.str i), some (Json.str nm), some (Json.str em), some (Json.str ca),
    some (Json.str ua), some (Json.str d), some (Json.bool act) =>
      some ⟨i, nm, em, ca, ua, some d, act⟩
  | _, _, _, _, _, _, _ => none

/-- `userResponseSchema.parse`. -/
def userResponseCheck (j : Json) : Except (List ZodIssue) User :=
  if userResponseIssuesOf j = [] then
    match j with
    | Json.obj fields =>
      match userFromFields fields with
      | some u => .ok u
      | none => .error []
    | _ => .error []
  else .error (userResponseIssuesOf j)

/-- Assemble the user list from a validated array body. -/
def usersFrom : List Json → Option (List User)
  | [] => some []
  | Json.obj fields :: rest =>
    match userFromFields fields, usersFrom rest with
    | some u, some us => some (u :: us)
    | _, _ => none
  | _ :: _ => none

/-- `z.array(userResponseSchema).parse`. -/
def userListCheck (j : Json) : Except (List ZodIssue) (List User) :=
  if userListIssuesOf j = [] then
    match j with
    | Json.arr xs =>
      match usersFrom xs with
      | some us => .ok us
      | none => .error []
    | _ => .error []
  else .error (userListIssuesOf j)

/-- `createUserSchema.parse(j)` succeeds. -/
def createUserAccepts (j : Json) : Bool :=
  match createUserCheck j with
  | .ok _ => true
  | .error _ => false

/-- The JSON object `{ name, email, password }` submitted to
`userService.create`. -/
def mkCreateJson (name email password : String) : Json :=
  Json.obj [("name", Json.str name), ("email", Json.str email),
            ("password", Json.str password)]

/-- The acceptance condition as the spec words it (for comparison with
`createUserAccepts`): name non-empty and at most 255 characters, email
well-formed, password at least 6 characters containing at least one
uppercase letter, one lowercase letter and one digit — anywhere in the
string. -/
def specCreateAccepts (name email password : String) : Bool :=
  decide (name ≠ "") && decide (name.length ≤ 255) && emailOk email &&
  decide (6 ≤ password.length) && password.data.any Char.isLower &&
  password.data.any Char.isUpper && password.data.any Char.isDigit

/-- An Axios failure: the request did not complete with a success status
(a non-2xx response or a network-level failure). -/
structure HttpFailure where
  status : Nat
  message : String
deriving DecidableEq, Repr

/-- The errors a `userService` operation can reject with: a `ZodError`
thrown by `schema.parse`, or an `AxiosError` thrown by the `api` call. -/
inductive ServiceError where
  | zodError (issues : List ZodIssue) : ServiceError
  | httpError (failure : HttpFailure) : ServiceError
deriving DecidableEq, Repr

/-- The outcome of a JavaScript async call: the promise fulfills with a
value, or rejects with a thrown error.  The TypeScript signatures
(`Promise<User>` etc.) have no value-level error channel: every failure is
a rejection. -/
inductive JsOutcome (α : Type) where
  | value (a : α) : JsOutcome α
  | thrown (e : ServiceError) : JsOutcome α
deriving DecidableEq, Repr

/-- The `error.message` the store reads off a caught error
(`error instanceof Error ? error.message : ...`): both `ZodError` and
`AxiosError` are `Error`s, so the fallback branch is unreachable.  The
exact message text is library-generated; we model it as the issue
messages joined for a `ZodError` and the carried message for an
`AxiosError`. -/
def ServiceError.msgText : ServiceError → String
  | .zodError issues => String.intercalate "; " (issues.map ZodIssue.message)
  | .httpError f => f.message

namespace userService

/-- `userService.list`: `GET /users`, then
`z.array(userResponseSchema).parse(response.data)`.  The server's behavior
is the `resp` parameter: an HTTP failure or a success body. -/
def list (resp : Except HttpFailure Json) : JsOutcome (List User) :=
  match resp with
  | .error f => .thrown (.httpError f)
  | .ok body =>
    match userListCheck body with
    | .error issues => .thrown (.zodError issues)
    | .ok us => .value us

/-- `userService.create`: `createUserSchema.parse(userData)` (throws on
invalid input, before any request), then `POST /users`, then
`userResponseSchema.parse(response.data)`. -/
def create (resp : Except HttpFailure Json) (userData : Json) : JsOutcome User :=
  match createUserCheck userData with
  | .error issues => .thrown (.zodError issues)
  | .ok _validated =>
    match resp with
    | .error f => .thrown (.httpError f)
    | .ok body =>
      match userResponseCheck body with
      | .error issues => .thrown (.zodError issues)
      | .ok u => .value u

/-- `userService.update`: `updateUserSchema.parse(userData)`, then
`PUT /users/:id`, then `userResponseSchema.parse(response.data)`. -/
def update (resp : Except HttpFailure Json) (_id : String) (userData : Json) :
    JsOutcome User :=
  match updateUserCheck userData with
  | .error issues => .thrown (.zodError issues)
  | .ok _validated =>
    match resp with
    | .error f => .thrown (.httpError f)
    | .ok body =>
      match userResponseCheck body with
      | .error issues => .thrown (.zodError issues)
      | .ok u => .value u

/-- `userService.delete`: `await api.delete(:id)` and nothing else — no
schema is applied to the response and the body is discarded. -/
def delete (resp : Except HttpFailure Json) (_id : String) : JsOutcome Unit :=
  match resp with
  | .error f => .thrown (.httpError f)
  | .ok _body => .value ()

/-- `userService.getById`: `GET /users/:id`, then
`userResponseSchema.parse(response.data)`. -/
def getById (resp : Except HttpFailure Json) (_id : String) : JsOutcome User :=
  match resp with
  | .error f => .thrown (.httpError f)
  | .ok body =>
    match userResponseCheck body with
    | .error issues => .thrown (.zodError issues)
    | .ok u => .value u

end userService

/-- The state held by `useUserStore`. -/
structure UserState where
  users : List User
  loading : Bool
  error : Option String
  selectedUser : Option User
deriving DecidableEq, Repr

/-- The store's initial state:
`users: [], loading: false, error: null, selectedUser: null`. -/
def initialState : UserState :=
  { users := [], loading := false, error := none, selectedUser := none }

/-- `fetchUsers`: synchronously `set({ loading: true, error: null })`, await
`userService.list()`, then on success `set({ users, loading: false })` and
on a caught error `set({ error: message, loading: false })` (zustand's `set`
merges the given fields into the state).  The first component is the state
at the suspension point, the second the final state. -/
def fetchUsers (st : UserState) (r : JsOutcome (List User)) : UserState × UserState :=
  let started : UserState := { st with loading := true, error := none }
  (started,
    match r with
    | .value users => { started with users := users, loading := false }
    | .thrown e => { started with error := some e.msgText, loading := false })

/-- `createUser`: on success the returned user is appended,
`set((state) => ({ users: [...state.users, newUser], loading: false }))`. -/
def createUser (st : UserState) (r : JsOutcome User) : UserState × UserState :=
  let started : UserState := { st with loading := true, error := none }
  (started,
    match r with
    | .value newUser => { started with users := started.users ++ [newUser], loading := false }
    | .thrown e => { started with error := some e.msgText, loading := false })

/-- `updateUser`: on success
`set((state) => ({ users: state.users.map((user) => user.id === id ? updatedUser : user), loading: false }))`. -/
def updateUser (st : UserState) (id : String) (r : JsOutcome User) :
    UserState × UserState :=
  let started : UserState := { st with loading := true, error := none }
  (started,
    match r with
    | .value updatedUser =>
      { started with
        users := started.users.map (fun user => if user.id = id then updatedUser else user),
        loading := false }
    | .thrown e => { started with error := some e.msgText, loading := false })

/-- `deleteUser`: on success
`set((state) => ({ users: state.users.filter((user) => user.id !== id), loading: false }))`. -/
def deleteUser (st : UserState) (id : String) (r : JsOutcome Unit) :
    UserState × UserState :=
  let started : UserState := { st with loading := true, error := none }
  (started,
    match r with
    | .value _ =>
      { started with users := started.users.filter (fun user => user.id != id),
                     loading := false }
    | .thrown e => { started with error := some e.msgText, loading := false })

/-- `fetchUserById`: on success `set({ selectedUser: user, loading: false })`. -/
def fetchUserById (st : UserState) (_id : String) (r : JsOutcome User) :
    UserState × UserState :=
  let started : UserState := { st with loading := true, error := none }
  (started,
    match r with
    | .value user => { started with selectedUser := some user, loading := false }
    | .thrown e => { started with error := some e.msgText, loading := false })

/-- On a failed action the store only rewrites `error` and `loading`:
collection and selection survive, and `loading` is not left `true`. -/
def failureSpec (st fin : UserState) (e : ServiceError) : Prop :=
  fin.error = some e.msgText ∧ fin.loading = false ∧
  fin.users = st.users ∧ fin.selectedUser = st.selectedUser

/-- Sample entity with identifier "1". -/
def u1 : User :=
  ⟨"1", "Ana", "ana@b.co", "2024-01-01T00:00:00Z", "2024-01-01T00:00:00Z", none, true⟩

/-- A different entity that reuses identifier "1". -/
def u1b : User :=
  ⟨"1", "Bia", "bia@b.co", "2024-01-02T00:00:00Z", "2024-01-02T00:00:00Z", none, true⟩

/-- Sample entity with identifier "7". -/
def u7 : User :=
  ⟨"7", "Caio", "caio@b.co", "2024-01-01T00:00:00Z", "2024-01-01T00:00:00Z", none, true⟩

/-- The server's updated version of the entity with identifier "7". -/
def u7b : User :=
  ⟨"7", "Caio Novo", "caio@b.co", "2024-01-01T00:00:00Z", "2024-01-03T00:00:00Z", none, true⟩

/-- Sample entity with identifier "42". -/
def u42 : User :=
  ⟨"42", "Duda", "duda@b.co", "2024-01-01T00:00:00Z", "2024-01-01T00:00:00Z", none, true⟩

/-- Sample entity with identifier "2". -/
def u2 : User :=
  ⟨"2", "Edu", "edu@b.co", "2024-01-01T00:00:00Z", "2024-01-01T00:00:00Z", none, true⟩

/-- Claim C1 counterexample: a successful `update("42", input)` on a store
whose collection has no element with identifier "42" leaves the collection
empty — the entity returned by the transport is not appended. -/
theorem updateUser_no_match_not_appended :
    (updateUser initialState "42" (JsOutcome.value u42)).2.users ≠
      initialState.users ++ [u42] := by decide

/-- Claim C1 (amended): on a successful `update(id, input)` the collection
keeps its length, each element whose identifier equals `id` is replaced in
place by the entity returned by the transport, each other element is kept,
and if no element matches, the collection is left unchanged (the returned
entity is not appended). -/
theorem updateUser_success_behavior (st : UserState) (id : String) (u : User) :
    ((updateUser st id (JsOutcome.value u)).2).users.length = st.users.length ∧
    (∀ (i : Nat) (x : User), st.users[i]? = some x →
      (x.id = id → ((updateUser st id (JsOutcome.value u)).2).users[i]? = some u) ∧
      (x.id ≠ id → ((updateUser st id (JsOutcome.value u)).2).users[i]? = some x)) ∧
    ((∀ x ∈ st.users, x.id ≠ id) →
      ((updateUser st id (JsOutcome.value u)).2).users = st.users) := by
  refine ⟨by simp [updateUser], ?_, ?_⟩
  · intro i x hx
    refine ⟨fun hid => ?_, fun hid => ?_⟩
    · simp [updateUser, List.getElem?_map, hx, hid]
    · simp [updateUser, List.getElem?_map, hx, hid]
  · intro h
    show st.users.map _ = st.users
    calc st.users.map (fun user => if user.id = id then u else user)
        = st.users.map (fun user => user) :=
          List.map_congr_left (fun x hx => if_neg (h x hx))
      _ = st.users := List.map_id _

/-- Claim C1 witness: at the concrete store `{ users := [u1] }` and the
unmatched identifier "42", the amended theorem yields that the collection
is unchanged. -/
theorem updateUser_success_behavior_wit :
    ((updateUser { users := [u1], loading := false, error := none, selectedUser := none }
        "42" (JsOutcome.value u42)).2).users = [u1] :=
  (updateUser_success_behavior
    { users := [u1], loading := false, error := none, selectedUser := none }
    "42" u42).2.2 (by decide)

/-- Claim C2 counterexample: a successful `delete("7")` while the selected
entity has identifier "7" does not clear the selection. -/
theorem deleteUser_selected_not_cleared :
    ((deleteUser { users := [u7], loading := false, error := none, selectedUser := some u7 }
        "7" (JsOutcome.value ())).2).selectedUser ≠ none := by decide

/-- Claim C2 (amended): a successful `delete(id)` removes exactly the
elements with identifier `id` from the collection and leaves the selected
entity unchanged — it is not cleared, even when its identifier is `id`. -/
theorem deleteUser_success_behavior (st : UserState) (id : String) :
    (∀ x ∈ ((deleteUser st id (JsOutcome.value ())).2).users, x.id ≠ id) ∧
    (∀ x ∈ st.users, x.id ≠ id → x ∈ ((deleteUser st id (JsOutcome.value ())).2).users) ∧
    ((deleteUser st id (JsOutcome.value ())).2).selectedUser = st.selectedUser ∧
    ((deleteUser st id (JsOutcome.value ())).2).loading = false := by
  refine ⟨?_, ?_, rfl, rfl⟩
  · intro x hx
    simp [deleteUser, List.mem_filter] at hx
    exact hx.2
  · intro x hx hne
    simp [deleteUser, List.mem_filter]
    exact ⟨hx, hne⟩

/-- Claim C2 witness: deleting "7" from `[u1, u7]` with `u7` selected keeps
`u1` in the collection and keeps `u7` selected. -/
theorem deleteUser_success_behavior_wit :
    u1 ∈ ((deleteUser ⟨[u1, u7], false, none, some u7⟩ "7" (JsOutcome.value ())).2).users ∧
    ((deleteUser ⟨[u1, u7], false, none, some u7⟩ "7" (JsOutcome.value ())).2).selectedUser
      = some u7 :=
  ⟨(deleteUser_success_behavior ⟨[u1, u7], false, none, some u7⟩ "7").2.1 u1
      (by decide) (by decide),
   (deleteUser_success_behavior ⟨[u1, u7], false, none, some u7⟩ "7").2.2.1⟩

/-- Claim C3: every failing store action stores the caught error's message
in `error`, resets `loading` to `false` (never leaving it stuck at `true`),
and leaves both the collection and the selected entity unchanged. -/
theorem store_failure_behavior (st : UserState) (e : ServiceError) (id : String) :
    failureSpec st (fetchUsers st (JsOutcome.thrown e)).2 e ∧
    failureSpec st (createUser st (JsOutcome.thrown e)).2 e ∧
    failureSpec st (updateUser st id (JsOutcome.thrown e)).2 e ∧
    failureSpec st (deleteUser st id (JsOutcome.thrown e)).2 e ∧
    failureSpec st (fetchUserById st id (JsOutcome.thrown e)).2 e :=
  ⟨⟨rfl, rfl, rfl, rfl⟩, ⟨rfl, rfl, rfl, rfl⟩, ⟨rfl, rfl, rfl, rfl⟩,
   ⟨rfl, rfl, rfl, rfl⟩, ⟨rfl, rfl, rfl, rfl⟩⟩

/-- Claim C6: every store action synchronously sets `loading = true` and
`error = null` before its suspension point, so the state observable
immediately after invoking the action (the first component) always shows
`loading = true` and no error, whatever the eventual outcome. -/
theorem store_actions_start_pending (st : UserState) (id : String)
    (rl : JsOutcome (List User)) (rc ru rg : JsOutcome User) (rd : JsOutcome Unit) :
    ((fetchUsers st rl).1.loading = true ∧ (fetchUsers st rl).1.error = none) ∧
    ((createUser st rc).1.loading = true ∧ (createUser st rc).1.error = none) ∧
    ((updateUser st id ru).1.loading = true ∧ (updateUser st id ru).1.error = none) ∧
    ((deleteUser st id rd).1.loading = true ∧ (deleteUser st id rd).1.error = none) ∧
    ((fetchUserById st id rg).1.loading = true ∧ (fetchUserById st id rg).1.error = none) :=
  ⟨⟨rfl, rfl⟩, ⟨rfl, rfl⟩, ⟨rfl, rfl⟩, ⟨rfl, rfl⟩, ⟨rfl, rfl⟩⟩

/-- Claim C7 counterexample: a successful `update("7", input)` while the
selected entity has identifier "7" does not replace the selection with the
entity returned by the transport. -/
theorem updateUser_selected_not_replaced :
    ((updateUser { users := [u7], loading := false, error := none, selectedUser := some u7 }
        "7" (JsOutcome.value u7b)).2).selectedUser ≠ some u7b := by decide

/-- Claim C7 (amended): a successful `update(id, input)` leaves the selected
entity unchanged, even when its identifier is `id` — it is not kept
consistent with the collection. -/
theorem updateUser_selected_invariant (st : UserState) (id : String) (u : User) :
    ((updateUser st id (JsOutcome.value u)).2).selectedUser = st.selectedUser := rfl

/-- Claim C8 counterexample: from the empty state, `create` appending `u1`
and then `create` appending `u1b` (same identifier "1", as nothing prevents
the server from returning a duplicate) yields a collection whose identifiers
are not unique. -/
theorem create_breaks_id_uniqueness :
    ¬ (((createUser (createUser initialState (JsOutcome.value u1)).2
        (JsOutcome.value u1b)).2).users.map User.id).Nodup := by decide

/-- Claim C8 (amended): `fetchAll` replaces the collection with exactly the
fetched sequence (so it is unique iff the response is), `create` preserves
identifier-uniqueness when the returned entity's identifier is not already
present, `update` preserves it when the returned entity carries the target
identifier, `delete` preserves it unconditionally, and `fetchById` leaves
the collection untouched. -/
theorem store_preserves_id_uniqueness (st : UserState) (id : String) (u : User)
    (users : List User) :
    (((fetchUsers st (JsOutcome.value users)).2).users = users) ∧
    ((st.users.map User.id).Nodup → u.id ∉ st.users.map User.id →
      (((createUser st (JsOutcome.value u)).2).users.map User.id).Nodup) ∧
    ((st.users.map User.id).Nodup → u.id = id →
      (((updateUser st id (JsOutcome.value u)).2).users.map User.id).Nodup) ∧
    ((st.users.map User.id).Nodup →
      (((deleteUser st id (JsOutcome.value ())).2).users.map User.id).Nodup) ∧
    (((fetchUserById st id (JsOutcome.value u)).2).users = st.users) := by
  refine ⟨rfl, ?_, ?_, ?_, rfl⟩
  · intro hnd hnotin
    show ((st.users ++ [u]).map User.id).Nodup
    rw [List.map_append]
    simp [List.nodup_append, hnd, hnotin]
  · intro hnd hid
    show ((st.users.map fun x => if x.id = id then u else x).map User.id).Nodup
    rw [List.map_map]
    have heq : ∀ x ∈ st.users,
        (User.id ∘ fun x => if x.id = id then u else x) x = User.id x := by
      intro x _
      by_cases h : x.id = id
      · simp [Function.comp, h, hid]
      · simp [Function.comp, h]
    rw [List.map_congr_left heq]
    exact hnd
  · intro hnd
    show ((st.users.filter fun x => x.id != id).map User.id).Nodup
    exact hnd.sublist ((List.filter_sublist st.users).map User.id)

/-- Claim C8 witness: at a concrete one-element store, a fresh `create`, an
identifier-preserving `update` and a `delete` each keep the identifiers
unique. -/
theorem store_preserves_id_uniqueness_wit :
    (((createUser { users := [u1], loading := false, error := none, selectedUser := none }
        (JsOutcome.value u2)).2).users.map User.id).Nodup ∧
    (((updateUser { users := [u1], loading := false, error := none, selectedUser := none }
        "1" (JsOutcome.value u1b)).2).users.map User.id).Nodup ∧
    (((deleteUser { users := [u1], loading := false, error := none, selectedUser := none }
        "1" (JsOutcome.value ())).2).users.map User.id).Nodup :=
  ⟨(store_preserves_id_uniqueness
      { users := [u1], loading := false, error := none, selectedUser := none }
      "1" u2 []).2.1 (by decide) (by decide),
   (store_preserves_id_uniqueness
      { users := [u1], loading := false, error := none, selectedUser := none }
      "1" u1b []).2.2.1 (by decide) (by decide),
   (store_preserves_id_uniqueness
      { users := [u1], loading := false, error := none, selectedUser := none }
      "1" u1b []).2.2.2.1 (by decide)⟩

/-- Claim C10: `userService.delete` applies no schema to the response — any
success body whatsoever yields a plain fulfilled promise, and no outcome of
the operation can ever be a thrown `ZodError`. -/
theorem delete_no_inbound_validation :
    (∀ (body : Json) (id : String),
      userService.delete (Except.ok body) id = JsOutcome.value ()) ∧
    (∀ (r : Except HttpFailure Json) (id : String) (issues : List ZodIssue),
      userService.delete r id ≠ JsOutcome.thrown (ServiceError.zodError issues)) := by
  refine ⟨fun _ _ => rfl, ?_⟩
  intro r id issues
  cases r <;> simp [userService.delete]

/-- The issue list of `createUserSchema` on a three-string-field object is
the concatenation of the three field chains' issues, key-prefixed. -/
theorem createIssues_mk (n e p : String) :
    createIssuesOf (mkCreateJson n e p) =
      (checkName n).map (fun i => ⟨"name" :: i.path, i.message⟩) ++
      (checkEmail e).map (fun i => ⟨"email" :: i.path, i.message⟩) ++
      (checkPassword p).map (fun i => ⟨"password" :: i.path, i.message⟩) := rfl

/-- A conditional singleton list is empty exactly when the condition fails. -/
theorem ite_cons_nil_iff {α : Type} (c : Prop) [Decidable c] (a : α) :
    (if c then [a] else []) = [] ↔ ¬ c := by
  split <;> simp_all

/-- A string of length zero is the empty string. -/
theorem eq_empty_of_length_zero : ∀ {s : String}, s.length = 0 → s = ""
  | ⟨[]⟩, _ => rfl
  | ⟨c :: cs⟩, h => by simp [String.length] at h

/-- A well-formed email is in particular non-empty. -/
theorem emailOk_ne_empty {e : String} (h : emailOk e = true) : 1 ≤ e.length := by
  by_contra hc
  push_neg at hc
  have hz : e = "" := eq_empty_of_length_zero (by omega)
  subst hz
  exact absurd h (by decide)

/-- The name chain passes exactly on a non-empty name of at most 255
characters. -/
theorem checkName_nil_iff (n : String) : checkName n = [] ↔ (n ≠ "" ∧ n.length ≤ 255) := by
  unfold checkName
  rw [List.append_eq_nil, ite_cons_nil_iff, ite_cons_nil_iff]
  constructor
  · rintro ⟨h1, h2⟩
    have hge : 1 ≤ n.length := by omega
    exact ⟨fun hcon => by subst hcon; exact absurd hge (by decide), by omega⟩
  · rintro ⟨h1, h2⟩
    have hge : 1 ≤ n.length := by
      by_contra hcon
      push_neg at hcon
      exact h1 (eq_empty_of_length_zero (by omega))
    exact ⟨by omega, by omega⟩

/-- The email chain passes exactly on a well-formed email (the `min(1)`
check is subsumed: a well-formed email is non-empty). -/
theorem checkEmail_nil_iff (e : String) : checkEmail e = [] ↔ emailOk e = true := by
  unfold checkEmail
  rw [List.append_eq_nil]
  constructor
  · rintro ⟨h1, _⟩
    cases hmail : emailOk e with
    | true => rfl
    | false => rw [hmail] at h1; simp at h1
  · intro h
    refine ⟨by rw [h]; rfl, ?_⟩
    rw [ite_cons_nil_iff]
    have := emailOk_ne_empty h
    omega

/-- The password chain passes exactly on a password of at least 6
characters that passes the lookahead regular expression. -/
theorem checkPassword_nil_iff (p : String) :
    checkPassword p = [] ↔ (6 ≤ p.length ∧ passwordRegexOk p = true) := by
  unfold checkPassword
  rw [List.append_eq_nil, ite_cons_nil_iff]
  constructor
  · rintro ⟨h1, h2⟩
    refine ⟨by omega, ?_⟩
    cases hr : passwordRegexOk p with
    | true => rfl
    | false => rw [hr] at h2; simp at h2
  · rintro ⟨h1, h2⟩
    exact ⟨by omega, by rw [h2]; rfl⟩

/-- Claim C9 counterexample: the password `"abc\nDEF123"` satisfies every
condition of the claim — at least 6 characters, containing lowercase,
uppercase and a digit — yet `createUserSchema` rejects it: the regular
expression `/^(?=.*[a-z])(?=.*[A-Z])(?=.*\d)/` is anchored at position 0
and `.` cannot cross the line terminator, so the uppercase letters and the
digit after the `\n` are invisible to the lookaheads. -/
theorem createUserSchema_multiline_password :
    specCreateAccepts "Ana" "ana@b.co" "abc\nDEF123" = true ∧
    createUserAccepts (mkCreateJson "Ana" "ana@b.co" "abc\nDEF123") = false := by decide

/-- Claim C9 (amended): `createUserSchema` accepts exactly when the name is
non-empty and at most 255 characters, the email is well-formed, and the
password is at least 6 characters and contains, in its maximal
line-terminator-free prefix, at least one lowercase letter, one uppercase
letter and one digit. -/
theorem createUserSchema_accept_iff (n e p : String) :
    createUserAccepts (mkCreateJson n e p) = true ↔
      (n ≠ "" ∧ n.length ≤ 255 ∧ emailOk e = true ∧ 6 ≤ p.length ∧
       ((p.data.takeWhile fun c => !isLineTerminator c).any Char.isLower = true ∧
        (p.data.takeWhile fun c => !isLineTerminator c).any Char.isUpper = true ∧
        (p.data.takeWhile fun c => !isLineTerminator c).any Char.isDigit = true)) := by
  have hsplit : createUserAccepts (mkCreateJson n e p) = true ↔
      createIssuesOf (mkCreateJson n e p) = [] := by
    by_cases hI : createIssuesOf (mkCreateJson n e p) = []
    · have hok : createUserCheck (mkCreateJson n e p) = Except.ok ⟨n, e, p⟩ := by
        unfold createUserCheck
        rw [if_pos hI]
        rfl
      simp [createUserAccepts, hok, hI]
    · have herr : createUserCheck (mkCreateJson n e p) =
          Except.error (createIssuesOf (mkCreateJson n e p)) := by
        unfold createUserCheck
        rw [if_neg hI]
      simp [createUserAccepts, herr, hI]
  rw [hsplit, createIssues_mk]
  simp only [List.append_eq_nil, List.map_eq_nil_iff]
  rw [checkName_nil_iff, checkEmail_nil_iff, checkPassword_nil_iff]
  simp only [passwordRegexOk, Bool.and_eq_true]
  tauto

/-- Claim C9 witness: a compliant input is accepted, via the amended
equivalence at concrete strings. -/
theorem createUserSchema_accept_iff_wit :
    createUserAccepts (mkCreateJson "Ana" "ana@b.co" "Abc123") = true :=
  (createUserSchema_accept_iff "Ana" "ana@b.co" "Abc123").mpr (by decide)

/-- Claim C4 counterexample: on invalid input, `userService.create` does not
return a ValidationError value — the schema's `.parse` throws, so the
promise rejects with the `ZodError` (carrying all four violated rules). -/
theorem create_invalid_input_throws :
    userService.create (Except.ok (Json.obj [])) (mkCreateJson "" "bad" "x") =
      JsOutcome.thrown (ServiceError.zodError
        [⟨["name"], "O nome é obrigatório"⟩, ⟨["email"], "Email inválido"⟩,
         ⟨["password"], "A senha deve ter no mínimo 6 caracteres"⟩,
         ⟨["password"],
          "A senha deve conter pelo menos uma letra maiúscula, uma minúscula e um número"⟩]) := by
  decide

/-- Claim C4 (amended): on invalid input the validation throws a `ZodError`
(the service promise rejects before any request is issued) whose issue list
carries a (field-path, message) pair for every violated rule — all
simultaneously violated rules are reported, not just the first. -/
theorem validation_reports_all_violations (resp : Except HttpFailure Json)
    (n e p : String)
    (hbad : n = "" ∨ 255 < n.length ∨ emailOk e = false ∨ p.length < 6 ∨
      passwordRegexOk p = false) :
    ∃ issues,
      userService.create resp (mkCreateJson n e p) =
        JsOutcome.thrown (ServiceError.zodError issues) ∧
      (n = "" → (⟨["name"], "O nome é obrigatório"⟩ : ZodIssue) ∈ issues) ∧
      (255 < n.length →
        (⟨["name"], "O nome deve conter no máximo 255 caracteres"⟩ : ZodIssue) ∈ issues) ∧
      (emailOk e = false → (⟨["email"], "Email inválido"⟩ : ZodIssue) ∈ issues) ∧
      (p.length < 6 →
        (⟨["password"], "A senha deve ter no mínimo 6 caracteres"⟩ : ZodIssue) ∈ issues) ∧
      (passwordRegexOk p = false →
        (⟨["password"],
          "A senha deve conter pelo menos uma letra maiúscula, uma minúscula e um número"⟩ :
          ZodIssue) ∈ issues) := by
  have h1 : n = "" →
      (⟨["name"], "O nome é obrigatório"⟩ : ZodIssue) ∈ createIssuesOf (mkCreateJson n e p) := by
    intro h
    subst h
    rw [createIssues_mk]
    refine List.mem_append_left _ (List.mem_append_left _ ?_)
    have hc : checkName "" = [⟨[], "O nome é obrigatório"⟩] := by decide
    rw [hc]
    simp
  have h2 : 255 < n.length →
      (⟨["name"], "O nome deve conter no máximo 255 caracteres"⟩ : ZodIssue) ∈
        createIssuesOf (mkCreateJson n e p) := by
    intro h
    rw [createIssues_mk]
    refine List.mem_append_left _ (List.mem_append_left _ ?_)
    unfold checkName
    rw [if_neg (by omega : ¬ n.length < 1), if_pos h]
    simp
  have h3 : emailOk e = false →
      (⟨["email"], "Email inválido"⟩ : ZodIssue) ∈ createIssuesOf (mkCreateJson n e p) := by
    intro h
    rw [createIssues_mk]
    refine List.mem_append_left _ (List.mem_append_right _ ?_)
    unfold checkEmail
    rw [h]
    simp
  have h4 : p.length < 6 →
      (⟨["password"], "A senha deve ter no mínimo 6 caracteres"⟩ : ZodIssue) ∈
        createIssuesOf (mkCreateJson n e p) := by
    intro h
    rw [createIssues_mk]
    refine List.mem_append_right _ ?_
    unfold checkPassword
    rw [if_pos h]
    simp
  have h5 : passwordRegexOk p = false →
      (⟨["password"],
        "A senha deve conter pelo menos uma letra maiúscula, uma minúscula e um número"⟩ :
        ZodIssue) ∈ createIssuesOf (mkCreateJson n e p) := by
    intro h
    rw [createIssues_mk]
    refine List.mem_append_right _ ?_
    unfold checkPassword
    rw [h]
    simp
  have hne : createIssuesOf (mkCreateJson n e p) ≠ [] := by
    rcases hbad with h | h | h | h | h
    · exact List.ne_nil_of_mem (h1 h)
    · exact List.ne_nil_of_mem (h2 h)
    · exact List.ne_nil_of_mem (h3 h)
    · exact List.ne_nil_of_mem (h4 h)
    · exact List.ne_nil_of_mem (h5 h)
  have hcheck : createUserCheck (mkCreateJson n e p) =
      Except.error (createIssuesOf (mkCreateJson n e p)) := by
    unfold createUserCheck
    rw [if_neg hne]
  refine ⟨createIssuesOf (mkCreateJson n e p), ?_, h1, h2, h3, h4, h5⟩
  simp [userService.create, hcheck]

/-- Claim C4 witness: the input with empty name, malformed email and
too-short password yields a rejection whose issue list reports all three
fields at once. -/
theorem validation_reports_all_violations_wit :
    ∃ issues,
      userService.create (Except.ok (Json.obj [])) (mkCreateJson "" "bad" "x") =
        JsOutcome.thrown (ServiceError.zodError issues) ∧
      (⟨["name"], "O nome é obrigatório"⟩ : ZodIssue) ∈ issues ∧
      (⟨["email"], "Email inválido"⟩ : ZodIssue) ∈ issues ∧
      (⟨["password"], "A senha deve ter no mínimo 6 caracteres"⟩ : ZodIssue) ∈ issues := by
  obtain ⟨issues, heq, hn, _, he, hp, _⟩ :=
    validation_reports_all_violations (Except.ok (Json.obj [])) "" "bad" "x" (Or.inl rfl)
  exact ⟨issues, heq, hn rfl, he (by decide), hp (by decide)⟩

/-- Claim C5 counterexample: an outbound validation failure (the input is
not even an object, so `createUserSchema.parse` throws before any request)
and an inbound malformed-response failure (valid input, but the server's
success body is `null`, so `userResponseSchema.parse` throws) produce
literally the same error — there is no distinct MalformedResponse kind. -/
theorem malformed_response_error_not_distinct :
    userService.create (Except.ok (Json.obj [])) Json.null =
      userService.create (Except.ok Json.null) (mkCreateJson "Ana" "ana@b.co" "Abc123") ∧
    userService.create (Except.ok (Json.obj [])) Json.null =
      JsOutcome.thrown (ServiceError.zodError [⟨[], "Expected object"⟩]) ∧
    createUserAccepts (mkCreateJson "Ana" "ana@b.co" "Abc123") = true := by decide

/-- Claim C5 (amended): a success response body failing inbound validation
is reported as a thrown `ZodError` carrying the response's issues, which is
distinguishable from an HTTP/server failure (an `AxiosError`) but not from
an outbound validation failure, which is also a `ZodError`. -/
theorem inbound_validation_error_reporting (input body : Json) (dto : CreateUserDTO)
    (issues : List ZodIssue) (f : HttpFailure) (id : String)
    (hin : createUserCheck input = Except.ok dto)
    (hbody : userResponseCheck body = Except.error issues) :
    userService.create (Except.ok body) input =
      JsOutcome.thrown (ServiceError.zodError issues) ∧
    userService.getById (Except.ok body) id =
      JsOutcome.thrown (ServiceError.zodError issues) ∧
    userService.create (Except.error f) input =
      JsOutcome.thrown (ServiceError.httpError f) ∧
    userService.getById (Except.error f) id =
      JsOutcome.thrown (ServiceError.httpError f) ∧
    (JsOutcome.thrown (ServiceError.zodError issues) : JsOutcome User) ≠
      JsOutcome.thrown (ServiceError.httpError f) := by
  refine ⟨?_, ?_, ?_, rfl, ?_⟩
  · simp [userService.create, hin, hbody]
  · simp [userService.getById, hbody]
  · simp [userService.create, hin]
  · simp

/-- Claim C5 witness: a `null` success body on `getById` rejects with the
response's `ZodError`, via the amended theorem at concrete inputs. -/
theorem inbound_validation_error_reporting_wit :
    userService.getById (Except.ok Json.null) "1" =
      JsOutcome.thrown (ServiceError.zodError [⟨[], "Expected object"⟩]) :=
  (inbound_validation_error_reporting (mkCreateJson "Ana" "ana@b.co" "Abc123") Json.null
    ⟨"Ana", "ana@b.co", "Abc123"⟩ [⟨[], "Expected object"⟩] ⟨500, "err"⟩ "1"
    rfl rfl).2.1
